import Mathlib

/-!
Verification of the frontend bootstrap/router file
`app/frontend/src/index.tsx` of azure-search-openai-demo.

The file defines a hash router with one root route (`/`, element `Layout`)
and four children: an index route (`Chat`, eager), `qa` (lazy `OneShot`),
`profile` (eager `ProfileSetup`) and the catch-all `*` (lazy `NoPage`);
it then initializes the Fluent UI icons and renders the router tree into
the DOM element with id `root`.

The embedding below models the route table exactly as written in the
source.  The matching machinery of `react-router-dom` is not part of the
repository, so it is modelled from the spec (see `patternPrimaryMatch`,
`matchChild`).  Lazy module resolution is modelled as a memoizing state
cell per lazy module, and the top-level bootstrap as a function from the
DOM lookup to a list of performed effects plus a result.
-/

/-- The page components referenced by the source file.  They are opaque
external collaborators; only their identity matters here. -/
inductive Component
  | Layout
  | Chat
  | OneShot
  | ProfileSetup
  | NoPage
deriving DecidableEq, Repr

/-- The two lazily loaded modules of the route table:
`./pages/oneshot/OneShot` and `./pages/NoPage`. -/
inductive ModuleId
  | oneShotModule
  | noPageModule
deriving DecidableEq, Repr

/-- The component exported by each lazy module. -/
def moduleComponent : ModuleId → Component
  | .oneShotModule => .OneShot
  | .noPageModule => .NoPage

/-- How a route obtains its component: `element` (eager, the component is
already available) or `lazy` (a deferred loader for a module). -/
inductive Resolution
  | eager (c : Component)
  | lazyLoad (m : ModuleId)
deriving DecidableEq, Repr

/-- The component a resolution ultimately yields. -/
def resolvedComponent : Resolution → Component
  | .eager c => c
  | .lazyLoad m => moduleComponent m

/-- The path pattern of a child route: `index: true`, a literal segment,
or the catch-all `path: "*"`. -/
inductive ChildPattern
  | index
  | literal (s : String)
  | wildcard
deriving DecidableEq, Repr

/-- A child route descriptor of the route table. -/
structure ChildRoute where
  pattern : ChildPattern
  resolution : Resolution
deriving DecidableEq, Repr

/-- `{ index: true, element: <Chat /> }` -/
def chatRoute : ChildRoute := ⟨.index, .eager .Chat⟩

/-- `{ path: "qa", lazy: () => import("./pages/oneshot/OneShot") }` -/
def qaRoute : ChildRoute := ⟨.literal "qa", .lazyLoad .oneShotModule⟩

/-- `{ path: "profile", element: <ProfileSetup /> }` -/
def profileRoute : ChildRoute := ⟨.literal "profile", .eager .ProfileSetup⟩

/-- `{ path: "*", lazy: () => import("./pages/NoPage") }` -/
def noPageRoute : ChildRoute := ⟨.wildcard, .lazyLoad .noPageModule⟩

/-- The `children` array of the root route, in source order. -/
def routerChildren : List ChildRoute :=
  [chatRoute, qaRoute, profileRoute, noPageRoute]

/-- The root route descriptor: `path: "/"`, `element: <Layout />`, with the
four children above. -/
structure RootRoute where
  path : String
  element : Component
  children : List ChildRoute
deriving DecidableEq, Repr

/-- The argument of `createHashRouter`: a single root route. -/
def routerRoutes : List RootRoute :=
  [⟨"/", .Layout, routerChildren⟩]

/-- A navigation target, represented as the list of path segments that
remain after the root route `/` has matched (`/` ↦ `[]`, `/qa` ↦
`["qa"]`, ...). -/
abbrev Remainder := List String

/-- Modelled from the spec: whether a child pattern matches a remainder
path directly (before wildcard fallback).  An index route matches the
empty remainder; a literal segment matches exactly that one segment; the
wildcard never matches directly — per the spec, routers "try literal/index
matches before wildcard fallback". -/
def patternPrimaryMatch : ChildPattern → Remainder → Bool
  | .index, [] => true
  | .index, _ :: _ => false
  | .literal s, [seg] => s == seg
  | .literal _, [] => false
  | .literal _, _ :: _ :: _ => false
  | .wildcard, _ => false

/-- Modelled from the spec glossary: a child route matches a remainder if
its pattern matches directly, or it is the catch-all wildcard and no
sibling matches directly ("a route matching any path not matched by a
more specific sibling route"). -/
def childMatches (siblings : List ChildRoute) (c : ChildRoute)
    (rem : Remainder) : Bool :=
  patternPrimaryMatch c.pattern rem ||
    (c.pattern == ChildPattern.wildcard &&
      siblings.all (fun d => !patternPrimaryMatch d.pattern rem))

/-- Modelled from the spec: route matching over a sibling group.  Direct
(index/literal) matches are tried first in order; the wildcard route, if
present, is the fallback. -/
def matchChild (children : List ChildRoute) (rem : Remainder) :
    Option ChildRoute :=
  match children.find? (fun c => patternPrimaryMatch c.pattern rem) with
  | some c => some c
  | none => children.find? (fun c => c.pattern == ChildPattern.wildcard)

/-- The memoization state of a lazy module within one page session. -/
inductive LoadState
  | unresolved
  | resolved
deriving DecidableEq, Repr

/-- The per-session state: the route table (constructed once at start)
and one memoization cell per lazy module. -/
structure SessionState where
  routes : List ChildRoute
  oneShotCell : LoadState
  noPageCell : LoadState
deriving DecidableEq, Repr

/-- The session state right after bootstrap: the route table as defined
in the source, no lazy module resolved yet. -/
def initState : SessionState :=
  ⟨routerChildren, .unresolved, .unresolved⟩

/-- Read a lazy module cell. -/
def getCell (s : SessionState) : ModuleId → LoadState
  | .oneShotModule => s.oneShotCell
  | .noPageModule => s.noPageCell

/-- Mark a lazy module cell as resolved. -/
def setResolved (s : SessionState) : ModuleId → SessionState
  | .oneShotModule => { s with oneShotCell := .resolved }
  | .noPageModule => { s with noPageCell := .resolved }

/-- The rendered component tree: the layout shell wrapping a child, or a
bare page component. -/
inductive RenderedTree
  | node (shell : Component) (child : RenderedTree)
  | leaf (page : Component)
deriving DecidableEq, Repr

/-- The outcome of a navigation: a rendered tree (normal routing), or a
no-match error when no sibling route matches at all. -/
inductive Outcome
  | rendered (t : RenderedTree)
  | noMatchError
deriving DecidableEq, Repr

/-- The result of one navigation step: the new session state, the list of
lazy-module resolutions it triggered, and what was rendered. -/
structure NavResult where
  state : SessionState
  triggered : List ModuleId
  outcome : Outcome
deriving DecidableEq, Repr

/-- Obtain the component of a resolution in the current session state,
triggering (and memoizing) the deferred load on first use of a lazy
module. -/
def resolveInSession (s : SessionState) :
    Resolution → SessionState × List ModuleId × Component
  | .eager c => (s, [], c)
  | .lazyLoad m =>
    match getCell s m with
    | .resolved => (s, [], moduleComponent m)
    | .unresolved => (setResolved s m, [m], moduleComponent m)

/-- One navigation within the session: match the remainder path against
the sibling routes, resolve the matched route component, and render it
inside the layout shell. -/
def navigate (s : SessionState) (rem : Remainder) : NavResult :=
  match matchChild s.routes rem with
  | none => ⟨s, [], .noMatchError⟩
  | some c =>
    let r := resolveInSession s c.resolution
    ⟨r.1, r.2.1, .rendered (.node .Layout (.leaf r.2.2))⟩

/-- Run a whole session: a sequence of navigations from a starting state,
collecting every triggered lazy-module resolution. -/
def runTrace (s : SessionState) : List Remainder → SessionState × List ModuleId
  | [] => (s, [])
  | p :: ps =>
    let r := navigate s p
    let rest := runTrace r.state ps
    (rest.1, r.triggered ++ rest.2)

/-- A DOM element, identified by its id. -/
structure DomElement where
  id : String
deriving DecidableEq, Repr

/-- The fatal startup error: `document.getElementById("root")` returned
null, so `ReactDOM.createRoot` cannot be invoked. -/
inductive StartupError
  | mountPointMissing
deriving DecidableEq, Repr

/-- The observable effects of the module top level: the global icon
subsystem setup and the render call into the mount point. -/
inductive Effect
  | initIconsEffect
  | renderEffect
deriving BEq, DecidableEq, Repr

/-- The mounted application: the container element and the initial
session state of the router tree rendered into it. -/
structure MountedApp where
  container : DomElement
  session : SessionState
deriving DecidableEq, Repr

/-- The module top level of `index.tsx`, run once per process: first
`initializeIcons()`, then the route table is built, then the mount point
is looked up and the tree is rendered into it.  If the lookup fails,
`createRoot` fails before any render happens and no tree is produced. -/
def bootstrap (getElementById : String → Option DomElement) :
    List Effect × Except StartupError MountedApp :=
  match getElementById "root" with
  | none => ([.initIconsEffect], .error .mountPointMissing)
  | some el => ([.initIconsEffect, .renderEffect], .ok ⟨el, initState⟩)

/-! ## Matching lemmas -/

theorem matchChild_nil : matchChild routerChildren [] = some chatRoute := by
  decide

theorem matchChild_qa : matchChild routerChildren ["qa"] = some qaRoute := by
  decide

theorem matchChild_profile :
    matchChild routerChildren ["profile"] = some profileRoute := by
  decide

theorem matchChild_other (rem : Remainder) (h0 : rem ≠ [])
    (h1 : rem ≠ ["qa"]) (h2 : rem ≠ ["profile"]) :
    matchChild routerChildren rem = some noPageRoute := by
  have hfall : routerChildren.find?
      (fun c => c.pattern == ChildPattern.wildcard) = some noPageRoute := by
    decide
  match rem with
  | [] => exact absurd rfl h0
  | [a] =>
    have hqa : ("qa" == a) = false := by
      simp only [beq_eq_false_iff_ne]
      intro h; subst h; exact h1 rfl
    have hpr : ("profile" == a) = false := by
      simp only [beq_eq_false_iff_ne]
      intro h; subst h; exact h2 rfl
    simp [matchChild, routerChildren, chatRoute, qaRoute, profileRoute,
      noPageRoute, patternPrimaryMatch, List.find?, hqa, hpr, hfall]
    decide
  | a :: b :: t =>
    simp [matchChild, routerChildren, chatRoute, qaRoute, profileRoute,
      noPageRoute, patternPrimaryMatch, List.find?, hfall]
    decide

theorem matchChild_total (rem : Remainder) :
    ∃ c, matchChild routerChildren rem = some c := by
  by_cases h0 : rem = []
  · exact ⟨chatRoute, h0 ▸ matchChild_nil⟩
  by_cases h1 : rem = ["qa"]
  · exact ⟨qaRoute, h1 ▸ matchChild_qa⟩
  by_cases h2 : rem = ["profile"]
  · exact ⟨profileRoute, h2 ▸ matchChild_profile⟩
  exact ⟨noPageRoute, matchChild_other rem h0 h1 h2⟩

/-! ## Navigation computation lemmas -/

theorem resolveInSession_eager (s : SessionState) (c : Component) :
    resolveInSession s (.eager c) = (s, [], c) := rfl

theorem resolveInSession_lazy_res (s : SessionState) (m : ModuleId)
    (h : getCell s m = .resolved) :
    resolveInSession s (.lazyLoad m) = (s, [], moduleComponent m) := by
  simp only [resolveInSession]
  rw [h]

theorem resolveInSession_lazy_unres (s : SessionState) (m : ModuleId)
    (h : getCell s m = .unresolved) :
    resolveInSession s (.lazyLoad m) = (setResolved s m, [m], moduleComponent m) := by
  simp only [resolveInSession]
  rw [h]

theorem resolveInSession_component (s : SessionState) (r : Resolution) :
    (resolveInSession s r).2.2 = resolvedComponent r := by
  cases r with
  | eager c => rfl
  | lazyLoad m => cases h : getCell s m <;> simp [resolveInSession, h, resolvedComponent]

theorem navigate_matched (s : SessionState) (rem : Remainder) (c : ChildRoute)
    (h : matchChild s.routes rem = some c) :
    navigate s rem = ⟨(resolveInSession s c.resolution).1,
      (resolveInSession s c.resolution).2.1,
      .rendered (.node .Layout (.leaf (resolveInSession s c.resolution).2.2))⟩ := by
  unfold navigate
  rw [h]

theorem navigate_nil (s : SessionState) (h : s.routes = routerChildren) :
    navigate s [] = ⟨s, [], .rendered (.node .Layout (.leaf .Chat))⟩ := by
  rw [navigate_matched s [] chatRoute (by rw [h]; exact matchChild_nil)]
  rfl

theorem navigate_profile (s : SessionState) (h : s.routes = routerChildren) :
    navigate s ["profile"] =
      ⟨s, [], .rendered (.node .Layout (.leaf .ProfileSetup))⟩ := by
  rw [navigate_matched s ["profile"] profileRoute (by rw [h]; exact matchChild_profile)]
  rfl

theorem navigate_qa_unres (s : SessionState) (h : s.routes = routerChildren)
    (hc : s.oneShotCell = .unresolved) :
    navigate s ["qa"] = ⟨{ s with oneShotCell := .resolved },
      [.oneShotModule], .rendered (.node .Layout (.leaf .OneShot))⟩ := by
  rw [navigate_matched s ["qa"] qaRoute (by rw [h]; exact matchChild_qa),
    show qaRoute.resolution = Resolution.lazyLoad .oneShotModule from rfl,
    resolveInSession_lazy_unres s .oneShotModule hc]
  rfl

theorem navigate_qa_res (s : SessionState) (h : s.routes = routerChildren)
    (hc : s.oneShotCell = .resolved) :
    navigate s ["qa"] =
      ⟨s, [], .rendered (.node .Layout (.leaf .OneShot))⟩ := by
  rw [navigate_matched s ["qa"] qaRoute (by rw [h]; exact matchChild_qa),
    show qaRoute.resolution = Resolution.lazyLoad .oneShotModule from rfl,
    resolveInSession_lazy_res s .oneShotModule hc]
  rfl

theorem navigate_other_unres (s : SessionState) (h : s.routes = routerChildren)
    (rem : Remainder) (h0 : rem ≠ []) (h1 : rem ≠ ["qa"])
    (h2 : rem ≠ ["profile"]) (hc : s.noPageCell = .unresolved) :
    navigate s rem = ⟨{ s with noPageCell := .resolved },
      [.noPageModule], .rendered (.node .Layout (.leaf .NoPage))⟩ := by
  rw [navigate_matched s rem noPageRoute
      (by rw [h]; exact matchChild_other rem h0 h1 h2),
    show noPageRoute.resolution = Resolution.lazyLoad .noPageModule from rfl,
    resolveInSession_lazy_unres s .noPageModule hc]
  rfl

theorem navigate_other_res (s : SessionState) (h : s.routes = routerChildren)
    (rem : Remainder) (h0 : rem ≠ []) (h1 : rem ≠ ["qa"])
    (h2 : rem ≠ ["profile"]) (hc : s.noPageCell = .resolved) :
    navigate s rem = ⟨s, [], .rendered (.node .Layout (.leaf .NoPage))⟩ := by
  rw [navigate_matched s rem noPageRoute
      (by rw [h]; exact matchChild_other rem h0 h1 h2),
    show noPageRoute.resolution = Resolution.lazyLoad .noPageModule from rfl,
    resolveInSession_lazy_res s .noPageModule hc]
  rfl

theorem navigate_routes (s : SessionState) (rem : Remainder) :
    (navigate s rem).state.routes = s.routes := by
  cases hm : matchChild s.routes rem with
  | none => simp [navigate, hm]
  | some c =>
    cases hr : c.resolution with
    | eager comp => simp [navigate, hm, hr, resolveInSession]
    | lazyLoad m =>
      cases hcell : getCell s m with
      | resolved => simp [navigate, hm, hr, resolveInSession, hcell]
      | unresolved =>
        cases m <;> simp [navigate, hm, hr, resolveInSession, hcell, setResolved]

theorem navigate_outcome (s : SessionState) (rem : Remainder) (c : ChildRoute)
    (h : matchChild s.routes rem = some c) :
    (navigate s rem).outcome =
      .rendered (.node .Layout (.leaf (resolvedComponent c.resolution))) := by
  rw [navigate_matched s rem c h]
  simp [resolveInSession_component]

theorem runTrace_routes (trace : List Remainder) :
    ∀ s : SessionState, (runTrace s trace).1.routes = s.routes := by
  induction trace with
  | nil => intro s; rfl
  | cons p ps ih =>
    intro s
    simp only [runTrace]
    rw [ih (navigate s p).state, navigate_routes]

theorem runTrace_oneShot_count (trace : List Remainder) :
    ∀ s : SessionState, s.routes = routerChildren →
      List.count ModuleId.oneShotModule (runTrace s trace).2 =
        (if s.oneShotCell = LoadState.unresolved ∧ ["qa"] ∈ trace
          then 1 else 0) := by
  induction trace with
  | nil =>
    intro s _
    simp [runTrace]
  | cons p ps ih =>
    intro s h
    have hone : List.count ModuleId.oneShotModule [ModuleId.oneShotModule] = 1 := by
      decide
    have hzero : List.count ModuleId.oneShotModule [ModuleId.noPageModule] = 0 := by
      decide
    simp only [runTrace, List.count_append]
    by_cases hp : p = ["qa"]
    · subst hp
      cases hc : s.oneShotCell with
      | unresolved =>
        rw [navigate_qa_unres s h hc, ih { s with oneShotCell := .resolved } h]
        simp [hc, hone]
      | resolved =>
        rw [navigate_qa_res s h hc, ih s h]
        simp [hc]
    · have hmem : (["qa"] ∈ p :: ps) ↔ ["qa"] ∈ ps :=
        ⟨fun hmm => (List.mem_cons.1 hmm).resolve_left
            (fun hh => absurd hh.symm hp),
          fun hmm => List.mem_cons_of_mem _ hmm⟩
      by_cases h0 : p = []
      · subst h0
        rw [navigate_nil s h, ih s h]
        simp [hmem]
      by_cases h2 : p = ["profile"]
      · subst h2
        rw [navigate_profile s h, ih s h]
        simp [hmem]
      cases hnp : s.noPageCell with
      | unresolved =>
        rw [navigate_other_unres s h p h0 hp h2 hnp,
          ih { s with noPageCell := .resolved } h]
        simp [hmem, hzero]
      | resolved =>
        rw [navigate_other_res s h p h0 hp h2 hnp, ih s h]
        simp [hmem]

theorem primaryMatch_index_iff (rem : Remainder) :
    patternPrimaryMatch .index rem = true ↔ rem = [] := by
  cases rem <;> simp [patternPrimaryMatch]

theorem primaryMatch_literal_iff (s : String) (rem : Remainder) :
    patternPrimaryMatch (.literal s) rem = true ↔ rem = [s] := by
  match rem with
  | [] => simp [patternPrimaryMatch]
  | [a] =>
    simp only [patternPrimaryMatch, beq_iff_eq, List.cons.injEq, and_true]
    exact eq_comm
  | a :: b :: t => simp [patternPrimaryMatch]

theorem primaryMatch_wildcard (rem : Remainder) :
    patternPrimaryMatch .wildcard rem = false := by
  cases rem <;> rfl

theorem primaryMatch_member (c : ChildRoute) (hc : c ∈ routerChildren)
    (rem : Remainder) (hm : patternPrimaryMatch c.pattern rem = true) :
    (c = chatRoute ∧ rem = []) ∨ (c = qaRoute ∧ rem = ["qa"]) ∨
      (c = profileRoute ∧ rem = ["profile"]) := by
  simp only [routerChildren, List.mem_cons, List.not_mem_nil, or_false] at hc
  rcases hc with rfl | rfl | rfl | rfl
  · exact Or.inl ⟨rfl, (primaryMatch_index_iff rem).1 hm⟩
  · exact Or.inr (Or.inl ⟨rfl, (primaryMatch_literal_iff "qa" rem).1 hm⟩)
  · exact Or.inr (Or.inr ⟨rfl, (primaryMatch_literal_iff "profile" rem).1 hm⟩)
  · rw [show noPageRoute.pattern = ChildPattern.wildcard from rfl,
      primaryMatch_wildcard] at hm
    simp at hm

/-! ## Claims -/

/-- Claim C1: every navigation to `/` (empty remainder path) renders the
chat page component as the index (default) child inside the layout shell,
and no other child route of the root matches the empty remainder. -/
theorem root_renders_chat_index :
    matchChild routerChildren [] = some chatRoute
    ∧ chatRoute.pattern = ChildPattern.index
    ∧ (∀ s : SessionState, s.routes = routerChildren →
        (navigate s []).outcome =
          Outcome.rendered (.node .Layout (.leaf .Chat)))
    ∧ (∀ c ∈ routerChildren, childMatches routerChildren c [] = true →
        c = chatRoute) := by
  refine ⟨matchChild_nil, rfl, ?_, ?_⟩
  · intro s h
    rw [navigate_nil s h]
  · intro c hc hmatch
    simp only [routerChildren, List.mem_cons, List.not_mem_nil, or_false] at hc
    rcases hc with rfl | rfl | rfl | rfl
    · rfl
    · exact absurd hmatch (by decide)
    · exact absurd hmatch (by decide)
    · exact absurd hmatch (by decide)

theorem root_renders_chat_index_witness :
    (navigate initState []).outcome =
      Outcome.rendered (.node .Layout (.leaf .Chat)) :=
  root_renders_chat_index.2.2.1 initState rfl

/-- Claim C2: every remainder path other than the defined ones (`[]`,
`["qa"]`, `["profile"]`) matches the catch-all wildcard route, and the
navigation renders the not-found page inside the layout shell — a normal
rendered outcome, never the no-match error. -/
theorem unmatched_path_renders_notfound (rem : Remainder) (h0 : rem ≠ [])
    (h1 : rem ≠ ["qa"]) (h2 : rem ≠ ["profile"]) :
    matchChild routerChildren rem = some noPageRoute
    ∧ (∀ s : SessionState, s.routes = routerChildren →
        (navigate s rem).outcome =
          Outcome.rendered (.node .Layout (.leaf .NoPage))
        ∧ (navigate s rem).outcome ≠ Outcome.noMatchError) := by
  refine ⟨matchChild_other rem h0 h1 h2, ?_⟩
  intro s h
  cases hnp : s.noPageCell with
  | unresolved =>
    rw [navigate_other_unres s h rem h0 h1 h2 hnp]
    exact ⟨rfl, by simp⟩
  | resolved =>
    rw [navigate_other_res s h rem h0 h1 h2 hnp]
    exact ⟨rfl, by simp⟩

theorem unmatched_path_renders_notfound_witness :
    (navigate initState ["missing"]).outcome =
      Outcome.rendered (.node .Layout (.leaf .NoPage)) :=
  ((unmatched_path_renders_notfound ["missing"] (by decide) (by decide)
      (by decide)).2 initState rfl).1

/-- Claim C3: within one session started at the initial state, the Q&A
page module is resolved exactly once when `/qa` is ever visited and never
otherwise; navigating to `/qa` always renders the Q&A page and leaves the
module cached, and once cached a navigation to `/qa` triggers no further
resolution. -/
theorem qa_lazy_resolved_once :
    (∀ trace : List Remainder,
      List.count ModuleId.oneShotModule (runTrace initState trace).2 =
        (if ["qa"] ∈ trace then 1 else 0))
    ∧ (∀ s : SessionState, s.routes = routerChildren →
        (navigate s ["qa"]).outcome =
          Outcome.rendered (.node .Layout (.leaf .OneShot))
        ∧ (navigate s ["qa"]).state.oneShotCell = LoadState.resolved)
    ∧ (∀ s : SessionState, s.routes = routerChildren →
        s.oneShotCell = LoadState.resolved →
        (navigate s ["qa"]).triggered = []) := by
  refine ⟨?_, ?_, ?_⟩
  · intro trace
    rw [runTrace_oneShot_count trace initState rfl]
    simp [initState]
  · intro s h
    cases hc : s.oneShotCell with
    | unresolved =>
      rw [navigate_qa_unres s h hc]
      exact ⟨rfl, rfl⟩
    | resolved =>
      rw [navigate_qa_res s h hc]
      exact ⟨rfl, hc⟩
  · intro s h hc
    rw [navigate_qa_res s h hc]

theorem qa_lazy_resolved_once_witness :
    List.count ModuleId.oneShotModule
        (runTrace initState [["qa"], ["qa"]]).2 = 1
    ∧ (navigate (runTrace initState [["qa"]]).1 ["qa"]).triggered = [] := by
  constructor
  · rw [qa_lazy_resolved_once.1 [["qa"], ["qa"]]]
    decide
  · exact qa_lazy_resolved_once.2.2 (runTrace initState [["qa"]]).1
      (by decide) (by decide)

/-- Claim C4: navigating to `/profile` renders the profile-setup page
eagerly: the route's resolution carries the component itself, and in every
session state the navigation triggers no deferred load and leaves the
session state unchanged. -/
theorem profile_renders_eagerly :
    profileRoute.resolution = Resolution.eager Component.ProfileSetup
    ∧ (∀ s : SessionState, s.routes = routerChildren →
        (navigate s ["profile"]).triggered = []
        ∧ (navigate s ["profile"]).state = s
        ∧ (navigate s ["profile"]).outcome =
            Outcome.rendered (.node .Layout (.leaf .ProfileSetup))) := by
  refine ⟨rfl, ?_⟩
  intro s h
  rw [navigate_profile s h]
  exact ⟨rfl, rfl, rfl⟩

theorem profile_renders_eagerly_witness :
    (navigate initState ["profile"]).triggered = [] :=
  (profile_renders_eagerly.2 initState rfl).1

/-- Claim C5: if the DOM lookup of the mount-point identifier `root`
yields no element, bootstrap fails with the mount-point-missing error
before any render: the render effect is never performed and no mounted
application (hence no component tree) is produced. -/
theorem missing_mount_fails_before_render
    (g : String → Option DomElement) (h : g "root" = none) :
    (bootstrap g).2 = Except.error StartupError.mountPointMissing
    ∧ Effect.renderEffect ∉ (bootstrap g).1
    ∧ ∀ app : MountedApp, (bootstrap g).2 ≠ Except.ok app := by
  refine ⟨?_, ?_, ?_⟩ <;> simp [bootstrap, h]

theorem missing_mount_fails_before_render_witness :
    (bootstrap fun _ => none).2 =
      Except.error StartupError.mountPointMissing :=
  (missing_mount_fails_before_render (fun _ => none) rfl).1

/-- Claim C6: the bootstrap effect sequence is strictly ordered and runs
once: the icon-subsystem effect occurs exactly once and is the first
effect, the render effect occurs at most once, and whenever the mount
point exists the sequence is exactly icon setup followed by one render. -/
theorem bootstrap_strictly_ordered (g : String → Option DomElement) :
    List.count Effect.initIconsEffect (bootstrap g).1 = 1
    ∧ (bootstrap g).1.head? = some Effect.initIconsEffect
    ∧ List.count Effect.renderEffect (bootstrap g).1 ≤ 1
    ∧ (∀ e : DomElement, g "root" = some e →
        (bootstrap g).1 = [Effect.initIconsEffect, Effect.renderEffect]) := by
  have h1 : List.count Effect.initIconsEffect [Effect.initIconsEffect] = 1 := by
    decide
  have h2 : List.count Effect.initIconsEffect
      [Effect.initIconsEffect, Effect.renderEffect] = 1 := by decide
  have h3 : List.count Effect.renderEffect [Effect.initIconsEffect] ≤ 1 := by
    decide
  have h4 : List.count Effect.renderEffect
      [Effect.initIconsEffect, Effect.renderEffect] ≤ 1 := by decide
  cases hg : g "root" with
  | none => refine ⟨?_, ?_, ?_, ?_⟩ <;> simp [bootstrap, hg, h1, h3]
  | some el => refine ⟨?_, ?_, ?_, ?_⟩ <;> simp [bootstrap, hg, h2, h4]

theorem bootstrap_strictly_ordered_witness :
    (bootstrap fun _ => some ⟨"root"⟩).1 =
      [Effect.initIconsEffect, Effect.renderEffect] :=
  (bootstrap_strictly_ordered (fun _ => some ⟨"root"⟩)).2.2.2 ⟨"root"⟩ rfl

/-- Claim C7: for every session state carrying the constructed route table
and every remainder path — defined or not — the navigation outcome is the
layout shell wrapping the component of the matched child route. -/
theorem layout_wraps_all (s : SessionState) (h : s.routes = routerChildren)
    (rem : Remainder) :
    ∃ c : ChildRoute, matchChild routerChildren rem = some c
      ∧ (navigate s rem).outcome =
          Outcome.rendered (RenderedTree.node Component.Layout
            (RenderedTree.leaf (resolvedComponent c.resolution))) := by
  obtain ⟨c, hc⟩ := matchChild_total rem
  exact ⟨c, hc, navigate_outcome s rem c (by rw [h]; exact hc)⟩

theorem layout_wraps_all_witness :
    ∃ c : ChildRoute, matchChild routerChildren ["anything"] = some c
      ∧ (navigate initState ["anything"]).outcome =
          Outcome.rendered (RenderedTree.node Component.Layout
            (RenderedTree.leaf (resolvedComponent c.resolution))) :=
  layout_wraps_all initState rfl ["anything"]

/-- Claim C8: in the constructed sibling group there is at most one
wildcard route and it is placed last; direct matches are unambiguous (no
two sibling routes directly match the same remainder path); and every
child route resolves to exactly one component. -/
theorem route_table_unambiguous :
    (routerChildren.filter
        (fun c => c.pattern == ChildPattern.wildcard)).length ≤ 1
    ∧ routerChildren.getLast? = some noPageRoute
    ∧ (∀ c ∈ routerChildren.dropLast, c.pattern ≠ ChildPattern.wildcard)
    ∧ (∀ rem : Remainder, ∀ c₁ ∈ routerChildren, ∀ c₂ ∈ routerChildren,
        patternPrimaryMatch c₁.pattern rem = true →
        patternPrimaryMatch c₂.pattern rem = true → c₁ = c₂)
    ∧ (∀ c ∈ routerChildren, ∃! comp : Component,
        resolvedComponent c.resolution = comp) := by
  refine ⟨by decide, by decide, ?_, ?_, ?_⟩
  · intro c hc
    have hdrop : routerChildren.dropLast = [chatRoute, qaRoute, profileRoute] := by
      decide
    rw [hdrop] at hc
    simp only [List.mem_cons, List.not_mem_nil, or_false] at hc
    rcases hc with rfl | rfl | rfl <;> decide
  · intro rem c₁ h₁ c₂ h₂ p₁ p₂
    rcases primaryMatch_member c₁ h₁ rem p₁ with ⟨rfl, rfl⟩ | ⟨rfl, rfl⟩ | ⟨rfl, rfl⟩ <;>
      rcases primaryMatch_member c₂ h₂ _ p₂ with ⟨rfl, hr⟩ | ⟨rfl, hr⟩ | ⟨rfl, hr⟩ <;>
        first
          | rfl
          | simp at hr
  · intro c _
    exact ⟨resolvedComponent c.resolution, rfl, fun y hy => hy.symm⟩

theorem route_table_unambiguous_witness :
    chatRoute = chatRoute
    ∧ (∃! comp : Component, resolvedComponent chatRoute.resolution = comp) := by
  constructor
  · exact route_table_unambiguous.2.2.2.1 [] chatRoute (by decide) chatRoute
      (by decide) (by decide) (by decide)
  · exact route_table_unambiguous.2.2.2.2 chatRoute (by decide)

/-- Claim C9: the route table is constructed exactly once at bootstrap —
the initial session state carries precisely the table written in the
source — and neither a single navigation nor any whole session of
navigations ever changes it. -/
theorem route_table_immutable :
    initState.routes = routerChildren
    ∧ (∀ s : SessionState, ∀ rem : Remainder,
        (navigate s rem).state.routes = s.routes)
    ∧ (∀ s : SessionState, ∀ trace : List Remainder,
        (runTrace s trace).1.routes = s.routes) :=
  ⟨rfl, navigate_routes, fun s trace => runTrace_routes trace s⟩

/-- Claim C10: the catch-all not-found route is lazily loaded, not an
eagerly available component: its resolution is the deferred NoPage
module, and the first navigation to an undefined path in a session (cell
still unresolved) triggers that module's resolution before the not-found
page renders. -/
theorem notfound_is_lazy :
    noPageRoute.resolution = Resolution.lazyLoad ModuleId.noPageModule
    ∧ (∀ c : Component, noPageRoute.resolution ≠ Resolution.eager c)
    ∧ (∀ s : SessionState, s.routes = routerChildren →
        s.noPageCell = LoadState.unresolved →
        ∀ rem : Remainder, rem ≠ [] → rem ≠ ["qa"] → rem ≠ ["profile"] →
          (navigate s rem).triggered = [ModuleId.noPageModule]
          ∧ (navigate s rem).state.noPageCell = LoadState.resolved
          ∧ (navigate s rem).outcome =
              Outcome.rendered (.node .Layout (.leaf .NoPage))) := by
  refine ⟨rfl, fun c h => by simp [noPageRoute] at h, ?_⟩
  intro s h hnp rem h0 h1 h2
  rw [navigate_other_unres s h rem h0 h1 h2 hnp]
  exact ⟨rfl, rfl, rfl⟩

theorem notfound_is_lazy_witness :
    (navigate initState ["missing", "page"]).triggered =
      [ModuleId.noPageModule] :=
  (notfound_is_lazy.2.2 initState rfl rfl ["missing", "page"] (by decide)
    (by decide) (by decide)).1
